import Mathlib

/-!
Shallow embedding of the task-manager REST API in src/restapipythonNew.py.

The embedding models the decoded JSON universe (`JValue`), Python dicts as
insertion-ordered association lists with unique keys (`dmem`, `dgetD`, `dset`,
`ddel`), the request-body reader, and the five HTTP method handlers
(`do_GET`, `do_POST`, `do_PUT`, `do_PATCH`, `do_DELETE`) of class
TaskAPIHandler, together with the seeded global store.

A handler run is summarised by an `Outcome`: the list of responses it wrote,
the store it left behind, and whether a Python exception escaped the handler
(`raised`). Identifier generation (uuid.uuid4) is modelled by passing the
fresh identifier as an explicit argument to `do_POST`.
-/

namespace TaskAPI

/-- A JSON value, as produced by json.loads and consumed by json.dumps.
Objects are insertion-ordered association lists (Python dicts). -/
inductive JValue where
  | null
  | bool (b : Bool)
  | num (n : Int)
  | str (s : String)
  | arr (elems : List JValue)
  | obj (fields : List (String × JValue))

/-- The global task store `tasks`: a Python dict from id to record. -/
abbrev Store := List (String × JValue)

/-- Python `k in d` for a dict: key membership. -/
def dmem (fs : List (String × JValue)) (k : String) : Bool :=
  fs.any (fun kv => kv.1 == k)

/-- Python `d.get(k, dflt)` (and `d[k]` under a membership guard):
the value stored at the key, or the default when the key is absent. -/
def dgetD (fs : List (String × JValue)) (k : String) (d : JValue) : JValue :=
  match fs with
  | [] => d
  | kv :: t => if kv.1 == k then kv.2 else dgetD t k d

/-- Python `d[k] = v`: update in place when the key is present, else append
(preserving insertion order, as CPython dicts do). -/
def dset (fs : List (String × JValue)) (k : String) (v : JValue) :
    List (String × JValue) :=
  match fs with
  | [] => [(k, v)]
  | kv :: t => if kv.1 == k then (k, v) :: t else kv :: dset t k v

/-- Python `del d[k]` (guarded by membership in the source). -/
def ddel (fs : List (String × JValue)) (k : String) : List (String × JValue) :=
  match fs with
  | [] => []
  | kv :: t => if kv.1 == k then t else kv :: ddel t k

/-- Occurrence of `needle` as a contiguous run of `hay` (Python `sub in str`). -/
def subOccurs (needle : List Char) : List Char → Bool
  | [] => needle.isEmpty
  | c :: t => needle.isPrefixOf (c :: t) || subOccurs needle t

/-- Python `k in v` on a decoded JSON value: dict key membership, list element
membership (only equal strings can match a string), substring test on strings;
a TypeError (modelled as `.error ()`) on numbers, booleans and None. -/
def pyContains (k : String) : JValue → Except Unit Bool
  | .obj fs => .ok (dmem fs k)
  | .arr xs => .ok (xs.any fun v => match v with | .str s => s == k | _ => false)
  | .str s => .ok (subOccurs k.data s.data)
  | _ => .error ()

/-- Splitting of a raw character list at every slash, keeping empty segments
(exactly Python str.split with a separator). -/
def splitSlash (cs : List Char) (cur : List Char) : List (List Char) :=
  match cs with
  | [] => [cur.reverse]
  | c :: t => if c = '/' then cur.reverse :: splitSlash t [] else splitSlash t (c :: cur)

/-- `path_parts = [part for part in self.path.split('/') if part]`:
the non-empty slash-separated segments of the request path. -/
def splitPath (p : String) : List String :=
  ((splitSlash p.data []).filter (fun cs => cs ≠ [])).map (fun cs => ⟨cs⟩)

/-- One HTTP response written by a handler: status code and optional
JSON body (the 204 branch writes no body). -/
structure Response where
  status : Nat
  body : Option JValue

/-- The observable result of running a handler on one request: the responses
it wrote, the store it left, and whether an exception escaped the handler. -/
structure Outcome where
  responses : List Response
  tasks : Store
  raised : Bool

/-- A JSON object body carrying a single error message. -/
def jerr (msg : String) : JValue := .obj [("error", .str msg)]

/-- The request body as the handler's body reader sees it: no body
(Content-Length 0); bytes that are not valid UTF-8 (body.decode raises
UnicodeDecodeError); UTF-8 text that is not valid JSON (json.loads raises
json.JSONDecodeError); or UTF-8 JSON decoding to a value. -/
inductive Body where
  | empty
  | badUtf8
  | notJson
  | value (v : JValue)

/-- `_read_request_body`: a zero-length body yields an empty dict; the try at
lines 51-53 catches only json.JSONDecodeError, so a JSON parse failure writes
the 400 Invalid JSON response itself and yields none, while a UTF-8 decode
failure raises past the reader (and past the handler) uncaught, modelled as
`.error ()`. -/
def readRequestBody : Body → Except Unit (Option JValue × List Response)
  | .empty => .ok (some (.obj []), [])
  | .badUtf8 => .error ()
  | .notJson => .ok (none, [⟨400, some (jerr "Invalid JSON")⟩])
  | .value v => .ok (some v, [])

/-- The record built by do_POST at lines 109-115: fresh id, required title,
defaulted description, status and dueDate. -/
def newTaskOf (fs : List (String × JValue)) (freshId : String) : JValue :=
  .obj [("id", .str freshId),
        ("title", dgetD fs "title" .null),
        ("description", dgetD fs "description" (.str "")),
        ("status", dgetD fs "status" (.str "pending")),
        ("dueDate", dgetD fs "dueDate" .null)]

/-- The record built by do_PUT at lines 149-155: path id plus the three
required fields and dueDate defaulted to None. -/
def putTaskOf (tid : String) (fs : List (String × JValue)) : JValue :=
  .obj [("id", .str tid),
        ("title", dgetD fs "title" .null),
        ("description", dgetD fs "description" .null),
        ("status", dgetD fs "status" .null),
        ("dueDate", dgetD fs "dueDate" .null)]

/-- The do_PATCH merge loop at lines 185-187: each body entry in order is
applied to the record exactly when its key is already present there. -/
def patchMerge (cur : List (String × JValue)) (entries : List (String × JValue)) :
    List (String × JValue) :=
  entries.foldl (fun acc kv => if dmem acc kv.1 then dset acc kv.1 kv.2 else acc) cur

/-- do_GET: list on the collection shapes, one record on the resource shape. -/
def do_GET (tasks : Store) (path : String) : Outcome :=
  let pp := splitPath path
  if pp = [] ∨ (pp.length = 1 ∧ pp.getD 0 "" = "tasks") then
    ⟨[⟨200, some (.arr (tasks.map Prod.snd))⟩], tasks, false⟩
  else if pp.length = 2 ∧ pp.getD 0 "" = "tasks" then
    let tid := pp.getD 1 ""
    if dmem tasks tid then
      ⟨[⟨200, some (dgetD tasks tid .null)⟩], tasks, false⟩
    else
      ⟨[⟨404, some (jerr "Task not found")⟩], tasks, false⟩
  else
    ⟨[⟨404, some (jerr "Not Found")⟩], tasks, false⟩

/-- do_POST: create on the single shape ["tasks"]; `freshId` stands for the
uuid4 value. A body decoding to a non-dict reaches `data.get` (AttributeError)
or, for numbers, booleans and None, raises already at `"title" not in data`. -/
def do_POST (tasks : Store) (path : String) (body : Body) (freshId : String) :
    Outcome :=
  let pp := splitPath path
  if pp.length = 1 ∧ pp.getD 0 "" = "tasks" then
    match readRequestBody body with
    | .error _ => ⟨[], tasks, true⟩
    | .ok (none, rs) => ⟨rs, tasks, false⟩
    | .ok (some data, _) =>
      match pyContains "title" data with
      | .error _ => ⟨[], tasks, true⟩
      | .ok mem =>
        if ¬ mem then
          ⟨[⟨400, some (jerr "Title is required")⟩], tasks, false⟩
        else
          match data with
          | .obj fs =>
            ⟨[⟨201, some (newTaskOf fs freshId)⟩],
             dset tasks freshId (newTaskOf fs freshId), false⟩
          | _ => ⟨[], tasks, true⟩
  else
    ⟨[⟨404, some (jerr "Not Found")⟩], tasks, false⟩

/-- do_PUT: full replacement on the resource shape; the 404 check precedes the
body read; the three required-field checks short-circuit left to right. -/
def do_PUT (tasks : Store) (path : String) (body : Body) : Outcome :=
  let pp := splitPath path
  if pp.length = 2 ∧ pp.getD 0 "" = "tasks" then
    let tid := pp.getD 1 ""
    if ¬ dmem tasks tid then
      ⟨[⟨404, some (jerr "Task not found")⟩], tasks, false⟩
    else
      match readRequestBody body with
      | .error _ => ⟨[], tasks, true⟩
      | .ok (none, rs) => ⟨rs, tasks, false⟩
      | .ok (some data, _) =>
        match pyContains "title" data with
        | .error _ => ⟨[], tasks, true⟩
        | .ok t1 =>
          if ¬ t1 then
            ⟨[⟨400, some (jerr "All fields (title, description, status) are required for PUT")⟩],
             tasks, false⟩
          else
            match pyContains "description" data with
            | .error _ => ⟨[], tasks, true⟩
            | .ok t2 =>
              if ¬ t2 then
                ⟨[⟨400, some (jerr "All fields (title, description, status) are required for PUT")⟩],
                 tasks, false⟩
              else
                match pyContains "status" data with
                | .error _ => ⟨[], tasks, true⟩
                | .ok t3 =>
                  if ¬ t3 then
                    ⟨[⟨400, some (jerr "All fields (title, description, status) are required for PUT")⟩],
                     tasks, false⟩
                  else
                    match data with
                    | .obj fs =>
                      ⟨[⟨200, some (putTaskOf tid fs)⟩],
                       dset tasks tid (putTaskOf tid fs), false⟩
                    | _ => ⟨[], tasks, true⟩
  else
    ⟨[⟨404, some (jerr "Not Found")⟩], tasks, false⟩

/-- do_PATCH: merge on the resource shape; the 404 check precedes the body
read; `data.items()` raises on a non-dict body; the in-place mutation of
`current_task` is modelled by storing the merged record back at the key. -/
def do_PATCH (tasks : Store) (path : String) (body : Body) : Outcome :=
  let pp := splitPath path
  if pp.length = 2 ∧ pp.getD 0 "" = "tasks" then
    let tid := pp.getD 1 ""
    if ¬ dmem tasks tid then
      ⟨[⟨404, some (jerr "Task not found")⟩], tasks, false⟩
    else
      match readRequestBody body with
      | .error _ => ⟨[], tasks, true⟩
      | .ok (none, rs) => ⟨rs, tasks, false⟩
      | .ok (some data, _) =>
        match data with
        | .obj entries =>
          match dgetD tasks tid .null with
          | .obj cfs =>
            ⟨[⟨200, some (.obj (patchMerge cfs entries))⟩],
             dset tasks tid (.obj (patchMerge cfs entries)), false⟩
          | _ => ⟨[], tasks, true⟩
        | _ => ⟨[], tasks, true⟩
  else
    ⟨[⟨404, some (jerr "Not Found")⟩], tasks, false⟩

/-- do_DELETE: removal on the resource shape; never reads the body. -/
def do_DELETE (tasks : Store) (path : String) : Outcome :=
  let pp := splitPath path
  if pp.length = 2 ∧ pp.getD 0 "" = "tasks" then
    let tid := pp.getD 1 ""
    if dmem tasks tid then
      ⟨[⟨204, none⟩], ddel tasks tid, false⟩
    else
      ⟨[⟨404, some (jerr "Task not found")⟩], tasks, false⟩
  else
    ⟨[⟨404, some (jerr "Not Found")⟩], tasks, false⟩

/-- The HTTP methods the handler class implements. -/
inductive Method where
  | get
  | post
  | put
  | patch
  | delete
deriving DecidableEq

/-- Per-method dispatch of BaseHTTPRequestHandler (do_<METHOD> naming). -/
def handle (m : Method) (tasks : Store) (path : String) (body : Body)
    (freshId : String) : Outcome :=
  match m with
  | .get => do_GET tasks path
  | .post => do_POST tasks path body freshId
  | .put => do_PUT tasks path body
  | .patch => do_PATCH tasks path body
  | .delete => do_DELETE tasks path

/-- The seeded record stored under "task123" (lines 11-16): note there is
no "id" key in the record itself. -/
def seedRec1 : List (String × JValue) :=
  [("title", .str "Buy groceries"),
   ("description", .str "Milk, bread, eggs, vegetables"),
   ("status", .str "pending"),
   ("dueDate", .str "2025-06-20")]

/-- The seeded record stored under "task456" (lines 17-22). -/
def seedRec2 : List (String × JValue) :=
  [("title", .str "Finish report"),
   ("description", .str "Complete Q2 financial report"),
   ("status", .str "in-progress"),
   ("dueDate", .str "2025-06-25")]

/-- The store as seeded at process start. -/
def initialTasks : Store :=
  [("task123", .obj seedRec1), ("task456", .obj seedRec2)]

/-- Every stored value is a JSON object (holds at start and is preserved by
every handler; the do_PATCH merge relies on it). -/
def storeWF (tasks : Store) : Bool :=
  tasks.all fun kv => match kv.2 with | .obj _ => true | _ => false

/-- Bodies that are absent, fail only the caught JSON parse (valid UTF-8),
or decode to a JSON object; bodies that are not valid UTF-8 and bodies
decoding to a non-object JSON value are excluded. -/
def bodyOk : Body → Bool
  | .empty => true
  | .badUtf8 => false
  | .notJson => true
  | .value v => match v with | .obj _ => true | _ => false

/-! ### Lemmas about the dict operations and the merge loop -/

theorem dgetD_dset_self (l : List (String × JValue)) (k : String) (v d : JValue) :
    dgetD (dset l k v) k d = v := by
  induction l with
  | nil => simp [dset, dgetD]
  | cons kv t ih =>
      by_cases h : kv.1 = k
      · simp [dset, dgetD, h]
      · simp [dset, dgetD, h, ih]

theorem dgetD_dset_ne (l : List (String × JValue)) (k k2 : String) (hne : k ≠ k2)
    (v d : JValue) : dgetD (dset l k v) k2 d = dgetD l k2 d := by
  induction l with
  | nil => simp [dset, dgetD, hne]
  | cons kv t ih =>
      by_cases h : kv.1 = k
      · simp [dset, dgetD, h, hne]
      · by_cases h2 : kv.1 = k2
        · simp [dset, dgetD, h, h2, Ne.symm hne]
        · simp [dset, dgetD, h, h2, ih]

theorem dmem_as_keys (l : List (String × JValue)) (k : String) :
    dmem l k = (l.map Prod.fst).any (fun s => s == k) := by
  induction l with
  | nil => rfl
  | cons kv t ih => simp [dmem, List.any_cons] at ih ⊢; rw [ih]

theorem dmem_congr_keys (l1 l2 : List (String × JValue))
    (h : l1.map Prod.fst = l2.map Prod.fst) (k : String) : dmem l1 k = dmem l2 k := by
  rw [dmem_as_keys, dmem_as_keys, h]

theorem dset_keys (l : List (String × JValue)) (k : String) (v : JValue)
    (h : dmem l k = true) : (dset l k v).map Prod.fst = l.map Prod.fst := by
  induction l with
  | nil => simp [dmem] at h
  | cons kv t ih =>
      by_cases hk : kv.1 = k
      · simp [dset, hk]
      · have ht : dmem t k = true := by
          simp [dmem, List.any_cons, hk] at h
          simpa [dmem] using h
        simp [dset, hk, ih ht]

theorem dmem_dset_same (l : List (String × JValue)) (k : String) (v : JValue) :
    dmem (dset l k v) k = true := by
  induction l with
  | nil => simp [dset, dmem]
  | cons kv t ih =>
      by_cases hk : kv.1 = k
      · simp [dset, hk, dmem]
      · rw [show dset (kv :: t) k v = kv :: dset t k v by simp [dset, hk]]
        have hstep : dmem (kv :: dset t k v) k =
            ((kv.1 == k) || dmem (dset t k v) k) := rfl
        rw [hstep, ih, Bool.or_true]

theorem patchMerge_nil (cur : List (String × JValue)) : patchMerge cur [] = cur := rfl

theorem patchMerge_cons (cur : List (String × JValue)) (kv : String × JValue)
    (t : List (String × JValue)) :
    patchMerge cur (kv :: t) =
      patchMerge (if dmem cur kv.1 then dset cur kv.1 kv.2 else cur) t := rfl

theorem patchMerge_keys (entries : List (String × JValue)) :
    ∀ cur, (patchMerge cur entries).map Prod.fst = cur.map Prod.fst := by
  induction entries with
  | nil => intro cur; rfl
  | cons kv t ih =>
      intro cur
      rw [patchMerge_cons]
      by_cases h : dmem cur kv.1 = true
      · rw [if_pos h, ih, dset_keys cur kv.1 kv.2 h]
      · rw [if_neg (by simpa using h), ih]

theorem dgetD_patchMerge_not_mem (entries : List (String × JValue)) :
    ∀ cur (k : String) (d : JValue), (∀ kv ∈ entries, kv.1 ≠ k) →
      dgetD (patchMerge cur entries) k d = dgetD cur k d := by
  induction entries with
  | nil => intro cur k d _; rfl
  | cons kv t ih =>
      intro cur k d hall
      have hk : kv.1 ≠ k := hall kv (List.mem_cons_self kv t)
      have ht : ∀ kv2 ∈ t, kv2.1 ≠ k := fun kv2 h2 => hall kv2 (List.mem_cons_of_mem kv h2)
      rw [patchMerge_cons]
      by_cases h : dmem cur kv.1 = true
      · rw [if_pos h, ih _ k d ht, dgetD_dset_ne cur kv.1 k hk]
      · rw [if_neg (by simpa using h), ih _ k d ht]

theorem dgetD_patchMerge_mem (entries : List (String × JValue)) :
    ∀ cur (k : String) (v d : JValue), (entries.map Prod.fst).Nodup →
      (k, v) ∈ entries → dmem cur k = true →
      dgetD (patchMerge cur entries) k d = v := by
  induction entries with
  | nil => intro cur k v d _ hmem _; simp at hmem
  | cons kv t ih =>
      intro cur k v d hnd hmem hcur
      have hnd2 : (t.map Prod.fst).Nodup := (List.nodup_cons.mp (by simpa using hnd)).2
      have hhead : kv.1 ∉ t.map Prod.fst := (List.nodup_cons.mp (by simpa using hnd)).1
      rcases List.mem_cons.mp hmem with heq | hmemt
      · have hk : kv = (k, v) := heq.symm
        subst hk
        rw [patchMerge_cons, if_pos hcur]
        have ht : ∀ kv2 ∈ t, kv2.1 ≠ k := by
          intro kv2 h2 hbad
          exact hhead (by simpa [hbad] using List.mem_map_of_mem Prod.fst h2)
        rw [dgetD_patchMerge_not_mem t _ k d ht, dgetD_dset_self]
      · have hkne : kv.1 ≠ k := by
          intro hbad
          exact hhead (by simpa [hbad] using List.mem_map_of_mem Prod.fst hmemt)
        rw [patchMerge_cons]
        by_cases h : dmem cur kv.1 = true
        · have hkeys : (dset cur kv.1 kv.2).map Prod.fst = cur.map Prod.fst :=
            dset_keys cur kv.1 kv.2 h
          have hcur2 : dmem (dset cur kv.1 kv.2) k = true := by
            rw [dmem_congr_keys _ cur hkeys]; exact hcur
          rw [if_pos h]
          exact ih _ k v d hnd2 hmemt hcur2
        · rw [if_neg (by simpa using h)]
          exact ih _ k v d hnd2 hmemt hcur

theorem patchMerge_all_unknown (entries : List (String × JValue)) :
    ∀ cur, (∀ kv ∈ entries, dmem cur kv.1 = false) → patchMerge cur entries = cur := by
  induction entries with
  | nil => intro cur _; rfl
  | cons kv t ih =>
      intro cur hall
      have hk : dmem cur kv.1 = false := hall kv (List.mem_cons_self kv t)
      rw [patchMerge_cons, if_neg (by simp [hk])]
      exact ih cur fun kv2 h2 => hall kv2 (List.mem_cons_of_mem kv h2)

theorem storeWF_dgetD_obj (tasks : Store) (tid : String)
    (hwf : storeWF tasks = true) (h : dmem tasks tid = true) :
    ∃ cfs, dgetD tasks tid JValue.null = .obj cfs := by
  induction tasks with
  | nil => simp [dmem] at h
  | cons kv t ih =>
      by_cases hk : kv.1 = tid
      · have : ∃ cfs, kv.2 = .obj cfs := by
          have := (List.all_eq_true.mp hwf) kv (List.mem_cons_self kv t)
          cases hv : kv.2 <;> simp [hv] at this ⊢
        rcases this with ⟨cfs, hcfs⟩
        exact ⟨cfs, by simp [dgetD, hk, hcfs]⟩
      · have hwf2 : storeWF t = true := by
          simp [storeWF, List.all_cons] at hwf
          simpa [storeWF] using hwf.2
        have h2 : dmem t tid = true := by
          simp [dmem, List.any_cons, hk] at h
          simpa [dmem] using h
        rcases ih hwf2 h2 with ⟨cfs, hcfs⟩
        exact ⟨cfs, by simp [dgetD, hk, hcfs]⟩

/-- The field list of a record value (stored records are JSON objects). -/
def recFields : JValue → List (String × JValue)
  | .obj fs => fs
  | _ => []

/-! ### Each handler writes exactly one response on well-formed input -/

theorem do_GET_writes_one (tasks : Store) (path : String) :
    (do_GET tasks path).responses.length = 1 ∧ (do_GET tasks path).raised = false := by
  unfold do_GET
  dsimp only
  repeat' split
  all_goals exact ⟨rfl, rfl⟩

theorem do_DELETE_writes_one (tasks : Store) (path : String) :
    (do_DELETE tasks path).responses.length = 1 ∧
    (do_DELETE tasks path).raised = false := by
  unfold do_DELETE
  dsimp only
  repeat' split
  all_goals exact ⟨rfl, rfl⟩

theorem do_POST_writes_one (tasks : Store) (path : String) (body : Body)
    (freshId : String) (hb : bodyOk body = true) :
    (do_POST tasks path body freshId).responses.length = 1 ∧
    (do_POST tasks path body freshId).raised = false := by
  unfold do_POST
  dsimp only
  split
  · cases body with
    | empty => exact ⟨rfl, rfl⟩
    | badUtf8 => simp [bodyOk] at hb
    | notJson => exact ⟨rfl, rfl⟩
    | value v =>
        cases v with
        | obj fs =>
            by_cases h : dmem fs "title" = true
            · simp [readRequestBody, pyContains, h]
            · simp [readRequestBody, pyContains, h]
        | null => simp [bodyOk] at hb
        | bool b => simp [bodyOk] at hb
        | num n => simp [bodyOk] at hb
        | str s => simp [bodyOk] at hb
        | arr xs => simp [bodyOk] at hb
  · exact ⟨rfl, rfl⟩

theorem do_PUT_writes_one (tasks : Store) (path : String) (body : Body)
    (hb : bodyOk body = true) :
    (do_PUT tasks path body).responses.length = 1 ∧
    (do_PUT tasks path body).raised = false := by
  unfold do_PUT
  dsimp only
  split
  · split
    · exact ⟨rfl, rfl⟩
    · cases body with
      | empty => exact ⟨rfl, rfl⟩
      | badUtf8 => simp [bodyOk] at hb
      | notJson => exact ⟨rfl, rfl⟩
      | value v =>
          cases v with
          | obj fs =>
              by_cases h1 : dmem fs "title" = true <;>
                by_cases h2 : dmem fs "description" = true <;>
                  by_cases h3 : dmem fs "status" = true <;>
                    simp [readRequestBody, pyContains, h1, h2, h3]
          | null => simp [bodyOk] at hb
          | bool b => simp [bodyOk] at hb
          | num n => simp [bodyOk] at hb
          | str s => simp [bodyOk] at hb
          | arr xs => simp [bodyOk] at hb
  · exact ⟨rfl, rfl⟩

theorem do_PATCH_writes_one (tasks : Store) (path : String) (body : Body)
    (hwf : storeWF tasks = true) (hb : bodyOk body = true) :
    (do_PATCH tasks path body).responses.length = 1 ∧
    (do_PATCH tasks path body).raised = false := by
  unfold do_PATCH
  dsimp only
  split
  · split
    · exact ⟨rfl, rfl⟩
    · case isFalse hmem =>
        have hm : dmem tasks ((splitPath path).getD 1 "") = true := by
          by_contra hc
          exact hmem (by simpa using hc)
        rcases storeWF_dgetD_obj tasks ((splitPath path).getD 1 "") hwf hm with ⟨cfs, hcfs⟩
        cases body with
        | empty =>
            simp only [readRequestBody]
            rw [hcfs]
            exact ⟨rfl, rfl⟩
        | badUtf8 => simp [bodyOk] at hb
        | notJson => exact ⟨rfl, rfl⟩
        | value v =>
            cases v with
            | obj entries =>
                simp only [readRequestBody]
                rw [hcfs]
                exact ⟨rfl, rfl⟩
            | null => simp [bodyOk] at hb
            | bool b => simp [bodyOk] at hb
            | num n => simp [bodyOk] at hb
            | str s => simp [bodyOk] at hb
            | arr xs => simp [bodyOk] at hb
  · exact ⟨rfl, rfl⟩

/-! ### Claim theorems -/

/-- C1: the claimed invariant "every record in the store contains a non-empty
id equal to its store key, and every record returned in a response body
contains that id field" fails already at the seeded state: the record stored
under "task123" has no "id" key at all, and Get one returns that id-less
record verbatim (records built by Create do carry the id). -/
theorem C1_seeded_record_has_no_id :
    (do_GET initialTasks "/tasks/task123").responses =
      [⟨200, some (.obj seedRec1)⟩] ∧
    dmem seedRec1 "id" = false ∧
    dmem seedRec2 "id" = false ∧
    dmem (recFields (newTaskOf [("title", .str "X")] "k1")) "id" = true :=
  ⟨rfl, rfl, rfl, rfl⟩

/-- C2: the claim "a client-supplied id in a PATCH or PUT body is ignored and
the record's id field still equals its original id" fails for PATCH on a
record that was created through Create: the created record carries an "id"
key, so the merge loop accepts a client-supplied "id" and overwrites the
stored id field (the store key itself stays put). After creating a task under
fresh id "k1" and patching it with body containing id "evil", the stored
record's id field is "evil" while the record still sits under key "k1". -/
theorem C2_patch_overwrites_id_field :
    (do_PATCH
        (do_POST initialTasks "/tasks" (.value (.obj [("title", .str "X")])) "k1").tasks
        "/tasks/k1" (.value (.obj [("id", .str "evil")]))).responses =
      [⟨200, some (.obj [("id", .str "evil"), ("title", .str "X"),
        ("description", .str ""), ("status", .str "pending"),
        ("dueDate", .null)])⟩] ∧
    dgetD (recFields (dgetD
        (do_PATCH
          (do_POST initialTasks "/tasks" (.value (.obj [("title", .str "X")])) "k1").tasks
          "/tasks/k1" (.value (.obj [("id", .str "evil")]))).tasks
        "k1" .null)) "id" .null = .str "evil" ∧
    dmem
        (do_PATCH
          (do_POST initialTasks "/tasks" (.value (.obj [("title", .str "X")])) "k1").tasks
          "/tasks/k1" (.value (.obj [("id", .str "evil")]))).tasks "k1" = true :=
  ⟨rfl, rfl, rfl⟩

/-- C3 counterexample: two bodies refute "the handler writes exactly one
response and no exception propagates" for arbitrary bodies: a body that is
valid JSON but a JSON array containing the string "title" makes the Create
handler raise (AttributeError at data.get), and a body that is not valid
UTF-8 makes it raise already inside the body reader (UnicodeDecodeError at
body.decode, not caught by the except clause for json.JSONDecodeError) —
in both cases no response at all is written. -/
theorem C3_nonobject_body_raises :
    (do_POST initialTasks "/tasks" (.value (.arr [.str "title"])) "k1").responses = [] ∧
    (do_POST initialTasks "/tasks" (.value (.arr [.str "title"])) "k1").raised = true ∧
    (do_POST initialTasks "/tasks" .badUtf8 "k1").responses = [] ∧
    (do_POST initialTasks "/tasks" .badUtf8 "k1").raised = true :=
  ⟨rfl, rfl, rfl, rfl⟩

/-- C3 (amended): for every request to any of the five handlers whose body is
absent, is valid UTF-8 that fails to parse as JSON (the caught decode
failure), or decodes to a JSON object, the handler writes exactly one
response and no exception escapes the handler (the store is assumed to hold
JSON-object records, as every reachable store does). -/
theorem C3_wellformed_body_single_response (m : Method) (tasks : Store)
    (path : String) (body : Body) (freshId : String)
    (hwf : storeWF tasks = true) (hb : bodyOk body = true) :
    (handle m tasks path body freshId).responses.length = 1 ∧
    (handle m tasks path body freshId).raised = false := by
  cases m with
  | get => exact do_GET_writes_one tasks path
  | post => exact do_POST_writes_one tasks path body freshId hb
  | put => exact do_PUT_writes_one tasks path body hb
  | patch => exact do_PATCH_writes_one tasks path body hwf hb
  | delete => exact do_DELETE_writes_one tasks path

/-- C3 witness: the amended theorem applied to a concrete PATCH request with
a valid-UTF-8 non-JSON body against the seeded store. -/
theorem C3_wellformed_body_single_response_witness :
    storeWF initialTasks = true ∧ bodyOk .notJson = true ∧
    (handle .patch initialTasks "/tasks/task123" .notJson "k1").responses.length = 1 ∧
    (handle .patch initialTasks "/tasks/task123" .notJson "k1").raised = false := by
  refine ⟨rfl, rfl, ?_, ?_⟩
  · exact (C3_wellformed_body_single_response .patch initialTasks "/tasks/task123"
      .notJson "k1" rfl rfl).1
  · exact (C3_wellformed_body_single_response .patch initialTasks "/tasks/task123"
      .notJson "k1" rfl rfl).2

/-- C4 counterexample: a POST to the bare root path, with a decodable body
containing title, is answered 404 Not Found and creates nothing — the Create
handler does not treat the empty path shape as the collection. -/
theorem C4_root_post_not_dispatched :
    do_POST initialTasks "/" (.value (.obj [("title", .str "X")])) "k1" =
      ⟨[⟨404, some (jerr "Not Found")⟩], initialTasks, false⟩ := rfl

/-- C4 (amended): a POST whose path splits into zero non-empty segments is
answered 404 Not Found with the store unchanged; only the path shape
["tasks"] dispatches to Create, where a decoded object body containing title
yields 201 with the new record, which is added to the store. -/
theorem C4_post_collection_routing (tasks : Store) (path : String)
    (body : Body) (freshId : String) :
    (splitPath path = [] →
      do_POST tasks path body freshId =
        ⟨[⟨404, some (jerr "Not Found")⟩], tasks, false⟩) ∧
    (∀ fs : List (String × JValue), splitPath path = ["tasks"] →
      body = .value (.obj fs) → dmem fs "title" = true →
      do_POST tasks path body freshId =
        ⟨[⟨201, some (newTaskOf fs freshId)⟩],
         dset tasks freshId (newTaskOf fs freshId), false⟩) := by
  constructor
  · intro hp
    unfold do_POST
    dsimp only
    rw [hp]
    simp
  · intro fs hp hb hmem
    subst hb
    unfold do_POST
    dsimp only
    rw [hp]
    simp [readRequestBody, pyContains, hmem]

/-- C4 witness: the amended theorem at the seeded store, for the root path
and for a well-formed create on the collection path. -/
theorem C4_post_collection_routing_witness :
    do_POST initialTasks "/" .empty "k1" =
      ⟨[⟨404, some (jerr "Not Found")⟩], initialTasks, false⟩ ∧
    do_POST initialTasks "/tasks" (.value (.obj [("title", .str "X")])) "k1" =
      ⟨[⟨201, some (newTaskOf [("title", .str "X")] "k1")⟩],
       dset initialTasks "k1" (newTaskOf [("title", .str "X")] "k1"), false⟩ :=
  ⟨(C4_post_collection_routing initialTasks "/" .empty "k1").1 rfl,
   (C4_post_collection_routing initialTasks "/tasks"
      (.value (.obj [("title", .str "X")])) "k1").2
     [("title", .str "X")] rfl rfl rfl⟩

/-- C5: full replace is total: for an id in the store and an object body
containing title, description and status, the stored record afterwards is
exactly the path id, the three supplied fields, and dueDate taken from the
body or null, with nothing from the prior version surviving; the single
response is 200 with that record. -/
theorem C5_put_full_replace (tasks : Store) (path tid : String)
    (fs : List (String × JValue))
    (hp : splitPath path = ["tasks", tid])
    (hmem : dmem tasks tid = true)
    (h1 : dmem fs "title" = true) (h2 : dmem fs "description" = true)
    (h3 : dmem fs "status" = true) :
    do_PUT tasks path (.value (.obj fs)) =
      ⟨[⟨200, some (putTaskOf tid fs)⟩],
       dset tasks tid (putTaskOf tid fs), false⟩ ∧
    dgetD (do_PUT tasks path (.value (.obj fs))).tasks tid .null = putTaskOf tid fs ∧
    putTaskOf tid fs =
      .obj [("id", .str tid), ("title", dgetD fs "title" .null),
            ("description", dgetD fs "description" .null),
            ("status", dgetD fs "status" .null),
            ("dueDate", dgetD fs "dueDate" .null)] := by
  have hmain : do_PUT tasks path (.value (.obj fs)) =
      ⟨[⟨200, some (putTaskOf tid fs)⟩],
       dset tasks tid (putTaskOf tid fs), false⟩ := by
    unfold do_PUT
    dsimp only
    rw [hp]
    simp [readRequestBody, pyContains, hmem, h1, h2, h3]
  exact ⟨hmain, by rw [hmain]; exact dgetD_dset_self tasks tid _ _, rfl⟩

/-- C5 witness: replacing the seeded record task123 with a three-field body. -/
theorem C5_put_full_replace_witness :
    do_PUT initialTasks "/tasks/task123"
        (.value (.obj [("title", .str "A"), ("description", .str "B"),
          ("status", .str "C")])) =
      ⟨[⟨200, some (putTaskOf "task123"
          [("title", .str "A"), ("description", .str "B"), ("status", .str "C")])⟩],
       dset initialTasks "task123" (putTaskOf "task123"
          [("title", .str "A"), ("description", .str "B"), ("status", .str "C")]),
       false⟩ :=
  (C5_put_full_replace initialTasks "/tasks/task123" "task123"
    [("title", .str "A"), ("description", .str "B"), ("status", .str "C")]
    rfl rfl rfl rfl rfl).1

/-- C6: partial update applies exactly the body keys already present on the
stored record: the merged record has the same key list as before, keys not
named in the body keep their prior values, keys named in the body and present
on the record take the body's values, and a body of only unknown keys leaves
the record unchanged; the single response is 200 with the merged record. -/
theorem C6_patch_frame (tasks : Store) (path tid : String)
    (entries cfs : List (String × JValue))
    (hp : splitPath path = ["tasks", tid])
    (hmem : dmem tasks tid = true)
    (hcur : dgetD tasks tid .null = .obj cfs)
    (hnd : (entries.map Prod.fst).Nodup) :
    do_PATCH tasks path (.value (.obj entries)) =
      ⟨[⟨200, some (.obj (patchMerge cfs entries))⟩],
       dset tasks tid (.obj (patchMerge cfs entries)), false⟩ ∧
    (patchMerge cfs entries).map Prod.fst = cfs.map Prod.fst ∧
    (∀ (k : String) (d : JValue), (∀ kv ∈ entries, kv.1 ≠ k) →
      dgetD (patchMerge cfs entries) k d = dgetD cfs k d) ∧
    (∀ (k : String) (v : JValue), (k, v) ∈ entries → dmem cfs k = true →
      ∀ d : JValue, dgetD (patchMerge cfs entries) k d = v) ∧
    ((∀ kv ∈ entries, dmem cfs kv.1 = false) → patchMerge cfs entries = cfs) := by
  refine ⟨?_, patchMerge_keys entries cfs,
    fun k d h => dgetD_patchMerge_not_mem entries cfs k d h,
    fun k v hm hc d => dgetD_patchMerge_mem entries cfs k v d hnd hm hc,
    fun h => patchMerge_all_unknown entries cfs h⟩
  unfold do_PATCH
  dsimp only
  rw [hp]
  simp [readRequestBody, hmem, hcur]

/-- C6 witness: patching the seeded record task123 with a body holding only
an unknown key answers 200 and stores the merged (here: unchanged) record. -/
theorem C6_patch_frame_witness :
    do_PATCH initialTasks "/tasks/task123"
        (.value (.obj [("nonexistentField", .str "z")])) =
      ⟨[⟨200, some (.obj (patchMerge seedRec1 [("nonexistentField", .str "z")]))⟩],
       dset initialTasks "task123"
         (.obj (patchMerge seedRec1 [("nonexistentField", .str "z")])), false⟩ :=
  (C6_patch_frame initialTasks "/tasks/task123" "task123"
    [("nonexistentField", .str "z")] seedRec1 rfl rfl rfl
    (List.nodup_singleton _)).1

/-- C7: round-trip: creating a task with body title "X" answers 201 with the
new record, and a Get on the returned id answers 200 with that record, whose
title is "X", description the empty string, status "pending" and dueDate
null. -/
theorem C7_create_get_roundtrip (tasks : Store) (freshId p2 : String)
    (hp2 : splitPath p2 = ["tasks", freshId]) :
    (do_POST tasks "/tasks" (.value (.obj [("title", .str "X")])) freshId).responses =
      [⟨201, some (newTaskOf [("title", .str "X")] freshId)⟩] ∧
    do_GET (do_POST tasks "/tasks" (.value (.obj [("title", .str "X")])) freshId).tasks p2 =
      ⟨[⟨200, some (newTaskOf [("title", .str "X")] freshId)⟩],
       dset tasks freshId (newTaskOf [("title", .str "X")] freshId), false⟩ ∧
    newTaskOf [("title", .str "X")] freshId =
      .obj [("id", .str freshId), ("title", .str "X"), ("description", .str ""),
            ("status", .str "pending"), ("dueDate", .null)] := by
  have hpost : do_POST tasks "/tasks" (.value (.obj [("title", .str "X")])) freshId =
      ⟨[⟨201, some (newTaskOf [("title", .str "X")] freshId)⟩],
       dset tasks freshId (newTaskOf [("title", .str "X")] freshId), false⟩ := by
    unfold do_POST
    dsimp only
    rw [show splitPath "/tasks" = ["tasks"] from rfl]
    simp [readRequestBody, pyContains, dmem]
  refine ⟨by rw [hpost], ?_, rfl⟩
  rw [hpost]
  unfold do_GET
  dsimp only
  rw [hp2]
  simp [dmem_dset_same, dgetD_dset_self]

/-- C7 witness: the round trip at the seeded store with fresh id "k1". -/
theorem C7_create_get_roundtrip_witness :
    do_GET (do_POST initialTasks "/tasks"
        (.value (.obj [("title", .str "X")])) "k1").tasks "/tasks/k1" =
      ⟨[⟨200, some (newTaskOf [("title", .str "X")] "k1")⟩],
       dset initialTasks "k1" (newTaskOf [("title", .str "X")] "k1"), false⟩ :=
  (C7_create_get_roundtrip initialTasks "k1" "/tasks/k1" rfl).2.1

/-- C8: for an id absent from the store, Get one, Full replace, Partial
update and Delete all answer 404 with the Task not found body, for any
request body, and leave the store unchanged. -/
theorem C8_absent_id_404 (tasks : Store) (path tid : String) (body : Body)
    (freshId : String) (hp : splitPath path = ["tasks", tid])
    (hmem : dmem tasks tid = false) :
    ∀ m : Method, m ≠ .post →
      handle m tasks path body freshId =
        ⟨[⟨404, some (jerr "Task not found")⟩], tasks, false⟩ := by
  intro m hm
  cases m with
  | get =>
      unfold handle do_GET
      dsimp only
      rw [hp]
      simp [hmem]
  | post => exact absurd rfl hm
  | put =>
      unfold handle do_PUT
      dsimp only
      rw [hp]
      simp [hmem]
  | patch =>
      unfold handle do_PATCH
      dsimp only
      rw [hp]
      simp [hmem]
  | delete =>
      unfold handle do_DELETE
      dsimp only
      rw [hp]
      simp [hmem]

/-- C8 witness: the four methods on the unknown id task999 at the seeded
store. -/
theorem C8_absent_id_404_witness :
    handle .get initialTasks "/tasks/task999" .empty "x" =
      ⟨[⟨404, some (jerr "Task not found")⟩], initialTasks, false⟩ ∧
    handle .put initialTasks "/tasks/task999" .empty "x" =
      ⟨[⟨404, some (jerr "Task not found")⟩], initialTasks, false⟩ ∧
    handle .patch initialTasks "/tasks/task999" .empty "x" =
      ⟨[⟨404, some (jerr "Task not found")⟩], initialTasks, false⟩ ∧
    handle .delete initialTasks "/tasks/task999" .empty "x" =
      ⟨[⟨404, some (jerr "Task not found")⟩], initialTasks, false⟩ :=
  ⟨C8_absent_id_404 initialTasks "/tasks/task999" "task999" .empty "x" rfl rfl
      .get (by decide),
   C8_absent_id_404 initialTasks "/tasks/task999" "task999" .empty "x" rfl rfl
      .put (by decide),
   C8_absent_id_404 initialTasks "/tasks/task999" "task999" .empty "x" rfl rfl
      .patch (by decide),
   C8_absent_id_404 initialTasks "/tasks/task999" "task999" .empty "x" rfl rfl
      .delete (by decide)⟩

/-- C9: a Create whose body is zero-length (decoding to the empty mapping) or
decodes to an object without the title key answers 400 Title is required and
leaves the store unchanged. -/
theorem C9_create_missing_title (tasks : Store) (path freshId : String)
    (body : Body) (hp : splitPath path = ["tasks"])
    (hb : body = .empty ∨
      ∃ fs, body = .value (.obj fs) ∧ dmem fs "title" = false) :
    do_POST tasks path body freshId =
      ⟨[⟨400, some (jerr "Title is required")⟩], tasks, false⟩ := by
  rcases hb with hb | ⟨fs, hb, hfs⟩
  · subst hb
    unfold do_POST
    dsimp only
    rw [hp]
    simp [readRequestBody, pyContains, dmem]
  · subst hb
    unfold do_POST
    dsimp only
    rw [hp]
    simp [readRequestBody, pyContains, hfs]

/-- C9 witness: a zero-length body at the seeded store. -/
theorem C9_create_missing_title_witness :
    do_POST initialTasks "/tasks" .empty "x" =
      ⟨[⟨400, some (jerr "Title is required")⟩], initialTasks, false⟩ :=
  C9_create_missing_title initialTasks "/tasks" "x" .empty rfl (Or.inl rfl)

/-- C10: for an id absent from the store, PUT and PATCH answer 404 Task not
found before the body is read or decoded — for every body, including one
that is not valid JSON — and the store is unchanged. -/
theorem C10_404_precedes_body_decode (tasks : Store) (path tid : String)
    (body : Body) (hp : splitPath path = ["tasks", tid])
    (hmem : dmem tasks tid = false) :
    do_PUT tasks path body =
      ⟨[⟨404, some (jerr "Task not found")⟩], tasks, false⟩ ∧
    do_PATCH tasks path body =
      ⟨[⟨404, some (jerr "Task not found")⟩], tasks, false⟩ := by
  constructor
  · unfold do_PUT
    dsimp only
    rw [hp]
    simp [hmem]
  · unfold do_PATCH
    dsimp only
    rw [hp]
    simp [hmem]

/-- C10 witness: PUT and PATCH on the unknown id task999 with a body that is
not valid JSON. -/
theorem C10_404_precedes_body_decode_witness :
    do_PUT initialTasks "/tasks/task999" .notJson =
      ⟨[⟨404, some (jerr "Task not found")⟩], initialTasks, false⟩ ∧
    do_PATCH initialTasks "/tasks/task999" .notJson =
      ⟨[⟨404, some (jerr "Task not found")⟩], initialTasks, false⟩ :=
  C10_404_precedes_body_decode initialTasks "/tasks/task999" "task999" .notJson
    rfl rfl

end TaskAPI
